import Mathlib

/-
Verification of the chapter-12 books-operator reconciler
(src/chapter-12/books-operator).  The Go source is shallowly embedded:
the Kubernetes client is modelled as an association-list cluster state
together with injectable API errors, and `Reconcile` is a direct
translation of `BookReconciler.Reconcile` from
internal/controller/book_controller.go that additionally records the
trace of client calls it performs.
-/

namespace BooksOperator

/-- A Kubernetes API error as seen through controller-runtime:
either a not-found error or any other error (carrying a message). -/
inductive KError where
  | notFound
  | other (msg : String)
deriving DecidableEq, Repr

/-- client.IgnoreNotFound: maps a not-found error to nil (`none`) and
passes every other error (and nil) through unchanged. -/
def IgnoreNotFound : Option KError → Option KError
  | some KError.notFound => none
  | e => e

/-- types.NamespacedName / client.ObjectKey: a name plus a namespace. -/
structure ObjectKey where
  Name : String
  Namespace : String
deriving DecidableEq, Repr

/-- ctrl.Request: holds the NamespacedName of the object to reconcile. -/
structure Request where
  NamespacedName : ObjectKey
deriving DecidableEq, Repr

/-- ctrl.Result: requeue directives returned by Reconcile.  The empty
value `{}` is Go's `ctrl.Result{}`. -/
structure CtrlResult where
  Requeue : Bool := false
  RequeueAfter : Nat := 0
deriving DecidableEq, Repr

/-- metav1.OwnerReference (the fields NewControllerRef populates). -/
structure OwnerReference where
  APIVersion : String
  Kind : String
  Name : String
  UID : String
  Controller : Bool
  BlockOwnerDeletion : Bool
deriving DecidableEq, Repr

/-- metav1.ObjectMeta restricted to the fields this operator uses. -/
structure ObjectMeta where
  Name : String
  Namespace : String := ""
  UID : String := ""
  OwnerReferences : List OwnerReference := []
deriving DecidableEq, Repr

/-- BookSpec from api/v1/book_types.go: a book title (string field
named `Book`) and a publication year (int field named `Year`). -/
structure BookSpec where
  Book : String
  Year : Int
deriving DecidableEq, Repr

/-- BookStatus from api/v1/book_types.go: deliberately empty. -/
structure BookStatus where
deriving DecidableEq, Repr

/-- The Book custom resource from api/v1/book_types.go. -/
structure Book where
  ObjectMeta : ObjectMeta
  Spec : BookSpec
  Status : BookStatus := {}
deriving DecidableEq, Repr

/-- resource.Quantity, kept as its source string (resource.MustParse). -/
structure Quantity where
  s : String
deriving DecidableEq, Repr

/-- resource.MustParse. -/
def MustParse (s : String) : Quantity := ⟨s⟩

/-- corev1.ResourceList: a map from resource name to quantity. -/
def ResourceList : Type := List (String × Quantity)

instance : DecidableEq ResourceList := by
  unfold ResourceList
  infer_instance

/-- corev1.ResourceRequirements. -/
structure ResourceRequirements where
  Requests : ResourceList
  Limits : ResourceList
deriving DecidableEq

/-- corev1.Container restricted to the fields this operator sets. -/
structure Container where
  Name : String
  Image : String
  Command : List String
  Resources : ResourceRequirements
deriving DecidableEq

/-- corev1.PodSpec restricted to its container list. -/
structure PodSpec where
  Containers : List Container
deriving DecidableEq

/-- corev1.Pod. -/
structure Pod where
  ObjectMeta : ObjectMeta
  Spec : PodSpec
deriving DecidableEq

/-- schema.GroupVersion. -/
structure GroupVersion where
  Group : String
  Version : String
deriving DecidableEq, Repr

/-- schema.GroupVersionKind. -/
structure GroupVersionKind where
  Group : String
  Version : String
  Kind : String
deriving DecidableEq, Repr

/-- GroupVersion.WithKind. -/
def GroupVersion.WithKind (gv : GroupVersion) (kind : String) : GroupVersionKind :=
  ⟨gv.Group, gv.Version, kind⟩

/-- packtv1.GroupVersion: the API group of the Book CRD.  The group
`packt.com` and version `v1` are fixed by the kubebuilder rbac markers
in book_controller.go and the api/v1 package. -/
def packtGroupVersion : GroupVersion := ⟨"packt.com", "v1"⟩

/-- metav1.NewControllerRef: an owner reference to `owner` with
Controller and BlockOwnerDeletion both set to true. -/
def NewControllerRef (owner : Book) (gvk : GroupVersionKind) : OwnerReference :=
  { APIVersion := gvk.Group ++ "/" ++ gvk.Version
    Kind := gvk.Kind
    Name := owner.ObjectMeta.Name
    UID := owner.ObjectMeta.UID
    Controller := true
    BlockOwnerDeletion := true }

/-- The Pod object Reconcile defines for a Book (book_controller.go,
the `pod := &corev1.Pod{...}` literal): named `<book>-pod` in the
Book's namespace, owned by the Book, with a single busybox container
whose command loops printing the book title and year
(fmt.Sprintf is expanded into string concatenation). -/
def newPod (book : Book) : Pod :=
  { ObjectMeta :=
      { Name := book.ObjectMeta.Name ++ "-pod"
        Namespace := book.ObjectMeta.Namespace
        OwnerReferences := [NewControllerRef book (packtGroupVersion.WithKind "Book")] }
    Spec :=
      { Containers :=
          [ { Name := "busybox"
              Image := "busybox:1.36"
              Command :=
                [ "sh", "-c",
                  "while true; do echo Book: " ++ book.Spec.Book ++
                    ", Year: " ++ toString book.Spec.Year ++ "; sleep 1; done" ]
              Resources :=
                { Requests := [("cpu", MustParse "100m"), ("memory", MustParse "128Mi")]
                  Limits := [("cpu", MustParse "200m"), ("memory", MustParse "256Mi")] } } ] } }

/-- The ObjectKey of the companion pod of a Book. -/
def bookPodKey (book : Book) : ObjectKey :=
  ⟨book.ObjectMeta.Name ++ "-pod", book.ObjectMeta.Namespace⟩

/-- First value bound to a given key in an association list. -/
def assocFind {α : Type} : List (ObjectKey × α) → ObjectKey → Option α
  | [], _ => none
  | e :: es, k => if e.1 = k then some e.2 else assocFind es k

/-- Number of entries bound to a given key in an association list. -/
def countKey {α : Type} (l : List (ObjectKey × α)) (k : ObjectKey) : Nat :=
  l.countP (fun e => decide (e.1 = k))

/-- The cluster state the client operates on: the stored Book
resources and the stored Pods, each keyed by name and namespace. -/
structure Cluster where
  Books : List (ObjectKey × Book)
  Pods : List (ObjectKey × Pod)
deriving DecidableEq

/-- Injectable API errors: when a field is `some e` the corresponding
client call fails with `e` instead of consulting the cluster state. -/
structure Faults where
  bookGet : Option KError := none
  podGet : Option KError := none
  podCreate : Option KError := none
deriving DecidableEq, Repr

/-- The fault-free environment. -/
def noFaults : Faults := {}

/-- r.Get for a Book: an injected fault error, else the stored Book,
else a not-found error. -/
def clientGetBook (c : Cluster) (f : Faults) (k : ObjectKey) : Except KError Book :=
  match f.bookGet with
  | some e => Except.error e
  | none =>
    match assocFind c.Books k with
    | some b => Except.ok b
    | none => Except.error KError.notFound

/-- r.Get for a Pod: an injected fault error, else the stored Pod,
else a not-found error. -/
def clientGetPod (c : Cluster) (f : Faults) (k : ObjectKey) : Except KError Pod :=
  match f.podGet with
  | some e => Except.error e
  | none =>
    match assocFind c.Pods k with
    | some p => Except.ok p
    | none => Except.error KError.notFound

/-- r.Create for a Pod: on an injected fault the cluster is unchanged
and the error is returned; otherwise the pod is stored under its
name and namespace and nil is returned. -/
def clientCreatePod (c : Cluster) (f : Faults) (p : Pod) : Cluster × Option KError :=
  match f.podCreate with
  | some e => (c, some e)
  | none =>
    ({ c with Pods := (⟨p.ObjectMeta.Name, p.ObjectMeta.Namespace⟩, p) :: c.Pods }, none)

/-- The client calls Reconcile can make.  The controller-runtime
client also offers Update, Patch and Delete (and a status writer);
those constructors are present so that "Reconcile never calls them"
is expressible, and Reconcile indeed never emits them. -/
inductive Op where
  | getBook (k : ObjectKey)
  | getPod (k : ObjectKey)
  | createPod (p : Pod)
  | updatePod (p : Pod)
  | deletePod (k : ObjectKey)
  | updateBook (b : Book)
  | updateBookStatus (b : Book)
deriving DecidableEq

/-- True exactly on the calls that mutate cluster state. -/
def Op.isMutation : Op → Bool
  | Op.createPod _ => true
  | Op.updatePod _ => true
  | Op.deletePod _ => true
  | Op.updateBook _ => true
  | Op.updateBookStatus _ => true
  | _ => false

/-- True exactly on pod create calls. -/
def Op.isCreatePod : Op → Bool
  | Op.createPod _ => true
  | _ => false

/-- True exactly on the calls that write to a Book resource
(spec/metadata update or status update). -/
def Op.writesBook : Op → Bool
  | Op.updateBook _ => true
  | Op.updateBookStatus _ => true
  | _ => false

/-- The outcome of one call to Reconcile: the resulting cluster
state, the returned ctrl.Result and error, and the trace of client
calls made, in order. -/
structure ReconcileOut where
  cluster : Cluster
  result : CtrlResult
  error : Option KError
  trace : List Op
deriving DecidableEq

/-- BookReconciler.Reconcile from
internal/controller/book_controller.go, translated line by line:
fetch the Book (returning IgnoreNotFound(err) on failure); define the
companion pod; Get the pod by its key, returning the error when it is
not a not-found error; return success when the pod exists; otherwise
Create the pod, returning its error verbatim on failure and nil on
success.  Every path returns ctrl.Result{}. -/
def Reconcile (c : Cluster) (f : Faults) (req : Request) : ReconcileOut :=
  match clientGetBook c f req.NamespacedName with
  | Except.error e =>
    ⟨c, {}, IgnoreNotFound (some e), [Op.getBook req.NamespacedName]⟩
  | Except.ok book =>
    let pod := newPod book
    let podKey : ObjectKey := { Name := pod.ObjectMeta.Name, Namespace := pod.ObjectMeta.Namespace }
    match clientGetPod c f podKey with
    | Except.ok _found =>
      ⟨c, {}, none, [Op.getBook req.NamespacedName, Op.getPod podKey]⟩
    | Except.error e =>
      if IgnoreNotFound (some e) ≠ none then
        ⟨c, {}, some e, [Op.getBook req.NamespacedName, Op.getPod podKey]⟩
      else
        match clientCreatePod c f pod with
        | (c2, some e2) =>
          ⟨c2, {}, some e2,
            [Op.getBook req.NamespacedName, Op.getPod podKey, Op.createPod pod]⟩
        | (c2, none) =>
          ⟨c2, {}, none,
            [Op.getBook req.NamespacedName, Op.getPod podKey, Op.createPod pod]⟩

/-- True exactly on pod Get calls. -/
def Op.isGetPod : Op → Bool
  | Op.getPod _ => true
  | _ => false

/-- Number of occurrences of a given call in a trace. -/
def countOp (t : List Op) (o : Op) : Nat :=
  t.countP (fun x => decide (x = o))

/-- IgnoreNotFound is the identity on errors other than notFound. -/
theorem ignoreNotFound_of_ne (e : KError) (h : e ≠ KError.notFound) :
    IgnoreNotFound (some e) = some e := by
  cases e with
  | notFound => exact absurd rfl h
  | other msg => rfl

/-- Reconcile when the Book fetch fails: it returns immediately with
IgnoreNotFound applied to the error, having only done the Book Get. -/
theorem reconcile_eq_book_error (c : Cluster) (f : Faults) (req : Request) (e : KError)
    (hb : clientGetBook c f req.NamespacedName = Except.error e) :
    Reconcile c f req = ⟨c, {}, IgnoreNotFound (some e), [Op.getBook req.NamespacedName]⟩ := by
  unfold Reconcile
  rw [hb]

/-- Reconcile when the Book exists and the companion pod is found:
it returns success with the cluster untouched. -/
theorem reconcile_eq_pod_found (c : Cluster) (f : Faults) (req : Request)
    (book : Book) (p : Pod)
    (hb : clientGetBook c f req.NamespacedName = Except.ok book)
    (hp : clientGetPod c f (bookPodKey book) = Except.ok p) :
    Reconcile c f req =
      ⟨c, {}, none, [Op.getBook req.NamespacedName, Op.getPod (bookPodKey book)]⟩ := by
  unfold Reconcile
  rw [hb]
  dsimp only
  rw [show ({ Name := (newPod book).ObjectMeta.Name,
              Namespace := (newPod book).ObjectMeta.Namespace } : ObjectKey) =
        bookPodKey book from rfl]
  rw [hp]

/-- Reconcile when the Book exists and the pod lookup fails with an
error other than notFound: the error is returned and nothing is
created. -/
theorem reconcile_eq_pod_error (c : Cluster) (f : Faults) (req : Request)
    (book : Book) (e : KError)
    (hb : clientGetBook c f req.NamespacedName = Except.ok book)
    (hp : clientGetPod c f (bookPodKey book) = Except.error e)
    (hne : e ≠ KError.notFound) :
    Reconcile c f req =
      ⟨c, {}, some e, [Op.getBook req.NamespacedName, Op.getPod (bookPodKey book)]⟩ := by
  unfold Reconcile
  rw [hb]
  dsimp only
  rw [show ({ Name := (newPod book).ObjectMeta.Name,
              Namespace := (newPod book).ObjectMeta.Namespace } : ObjectKey) =
        bookPodKey book from rfl]
  rw [hp]
  dsimp only
  rw [if_pos]
  rw [ignoreNotFound_of_ne e hne]
  exact Option.some_ne_none e

/-- Reconcile when the Book exists and the pod lookup reports
notFound: the pod is created and Create's outcome is returned. -/
theorem reconcile_eq_create (c : Cluster) (f : Faults) (req : Request) (book : Book)
    (hb : clientGetBook c f req.NamespacedName = Except.ok book)
    (hp : clientGetPod c f (bookPodKey book) = Except.error KError.notFound) :
    Reconcile c f req =
      ⟨(clientCreatePod c f (newPod book)).1, {}, (clientCreatePod c f (newPod book)).2,
        [Op.getBook req.NamespacedName, Op.getPod (bookPodKey book),
          Op.createPod (newPod book)]⟩ := by
  unfold Reconcile
  rw [hb]
  dsimp only
  rw [show ({ Name := (newPod book).ObjectMeta.Name,
              Namespace := (newPod book).ObjectMeta.Namespace } : ObjectKey) =
        bookPodKey book from rfl]
  rw [hp]
  dsimp only
  rw [if_neg (by simp [IgnoreNotFound])]
  rcases hcr : clientCreatePod c f (newPod book) with ⟨c2, r⟩
  rcases r with _ | e2 <;> simp

/-- The Book-side view of a BookSpec as a pair. -/
def BookSpec.toPair (s : BookSpec) : String × Int := (s.Book, s.Year)

/-- Building a BookSpec from a title and a year. -/
def BookSpec.ofPair (p : String × Int) : BookSpec := ⟨p.1, p.2⟩

/-- clientCreatePod never modifies the stored Books. -/
theorem clientCreatePod_fst_Books (c : Cluster) (f : Faults) (p : Pod) :
    (clientCreatePod c f p).1.Books = c.Books := by
  unfold clientCreatePod
  split <;> rfl

/-- clientCreatePod never modifies the stored Books (equation form). -/
theorem clientCreatePod_books_eq (c : Cluster) (f : Faults) (p : Pod)
    (c2 : Cluster) (r : Option KError)
    (h : clientCreatePod c f p = (c2, r)) : c2.Books = c.Books := by
  have h1 := clientCreatePod_fst_Books c f p
  rw [h] at h1
  exact h1

/-- C6: Reconcile never requests a requeue: on every path the returned
ctrl.Result is the empty value, with Requeue false and no
RequeueAfter delay. -/
theorem reconcile_never_requeues (c : Cluster) (f : Faults) (req : Request) :
    (Reconcile c f req).result = {} ∧
    (Reconcile c f req).result.Requeue = false ∧
    (Reconcile c f req).result.RequeueAfter = 0 := by
  have h : (Reconcile c f req).result = {} := by
    unfold Reconcile
    split
    · rfl
    · dsimp only
      split
      · rfl
      · split
        · rfl
        · split <;> rfl
  rw [h]
  exact ⟨rfl, rfl, rfl⟩

/-- C7: Reconcile performs no status reporting and never writes to the
Book resource: the stored Books are unchanged by every reconciliation
and the trace contains no Book-writing call. -/
theorem reconcile_no_book_write (c : Cluster) (f : Faults) (req : Request) :
    (Reconcile c f req).cluster.Books = c.Books ∧
    ∀ op ∈ (Reconcile c f req).trace, Op.writesBook op = false := by
  unfold Reconcile
  split
  · refine ⟨rfl, ?_⟩
    intro op hop
    simp only [List.mem_singleton] at hop
    subst hop
    rfl
  · dsimp only
    split
    · refine ⟨rfl, ?_⟩
      intro op hop
      simp only [List.mem_cons, List.mem_singleton, List.not_mem_nil, or_false] at hop
      rcases hop with rfl | rfl <;> rfl
    · split
      · refine ⟨rfl, ?_⟩
        intro op hop
        simp only [List.mem_cons, List.mem_singleton, List.not_mem_nil, or_false] at hop
        rcases hop with rfl | rfl <;> rfl
      · split
        all_goals {
          rename_i heq
          refine ⟨clientCreatePod_books_eq c f _ _ _ heq, ?_⟩
          intro op hop
          simp only [List.mem_cons, List.not_mem_nil, or_false] at hop
          rcases hop with rfl | rfl | rfl <;> rfl
        }

/-- An association list in which a key is unbound has no entry for it. -/
theorem countKey_eq_zero_of_assocFind_none {α : Type} (l : List (ObjectKey × α))
    (k : ObjectKey) (h : assocFind l k = none) : countKey l k = 0 := by
  induction l with
  | nil => rfl
  | cons e es ih =>
    unfold assocFind at h
    by_cases hek : e.1 = k
    · rw [if_pos hek] at h
      exact absurd h (by simp)
    · rw [if_neg hek] at h
      unfold countKey at ih ⊢
      rw [List.countP_cons, ih h]
      simp [hek]

/-- clientGetBook only depends on the stored Books. -/
theorem clientGetBook_congr (c1 c2 : Cluster) (f : Faults) (k : ObjectKey)
    (h : c1.Books = c2.Books) : clientGetBook c1 f k = clientGetBook c2 f k := by
  unfold clientGetBook
  rw [h]

/-- C1: when the Book exists, Reconcile performs exactly one existence
check — a pod Get, for the pod named after the Book — and exactly one
create when that check reports notFound, and no create at all when the
check finds the pod. -/
theorem reconcile_single_check_single_create (c : Cluster) (f : Faults) (req : Request)
    (book : Book)
    (hb : clientGetBook c f req.NamespacedName = Except.ok book) :
    (clientGetPod c f (bookPodKey book) = Except.error KError.notFound →
      (Reconcile c f req).trace.countP Op.isGetPod = 1 ∧
      countOp (Reconcile c f req).trace (Op.getPod (bookPodKey book)) = 1 ∧
      (Reconcile c f req).trace.countP Op.isCreatePod = 1) ∧
    (∀ p : Pod, clientGetPod c f (bookPodKey book) = Except.ok p →
      (Reconcile c f req).trace.countP Op.isGetPod = 1 ∧
      (Reconcile c f req).trace.countP Op.isCreatePod = 0) := by
  constructor
  · intro hp
    rw [reconcile_eq_create c f req book hb hp]
    refine ⟨?_, ?_, ?_⟩ <;>
      simp [countOp, List.countP_cons, Op.isGetPod, Op.isCreatePod]
  · intro p hp
    rw [reconcile_eq_pod_found c f req book p hb hp]
    constructor <;> simp [List.countP_cons, Op.isGetPod, Op.isCreatePod]

/-- C2: the pod Reconcile defines for a Book carries a single owner
reference marking the Book as its controller, its single container's
command loops printing the Book's title and year, and any pod
Reconcile ever creates for that Book is exactly this pod. -/
theorem reconcile_pod_owned_and_loops (c : Cluster) (f : Faults) (req : Request)
    (book : Book)
    (hb : clientGetBook c f req.NamespacedName = Except.ok book) :
    (newPod book).ObjectMeta.OwnerReferences =
      [NewControllerRef book (packtGroupVersion.WithKind "Book")] ∧
    (NewControllerRef book (packtGroupVersion.WithKind "Book")).Controller = true ∧
    (NewControllerRef book (packtGroupVersion.WithKind "Book")).Kind = "Book" ∧
    (NewControllerRef book (packtGroupVersion.WithKind "Book")).Name =
      book.ObjectMeta.Name ∧
    (∃ cont : Container, (newPod book).Spec.Containers = [cont] ∧
      cont.Command = ["sh", "-c",
        "while true; do echo Book: " ++ book.Spec.Book ++ ", Year: " ++
          toString book.Spec.Year ++ "; sleep 1; done"]) ∧
    (∀ p : Pod, Op.createPod p ∈ (Reconcile c f req).trace → p = newPod book) := by
  refine ⟨rfl, rfl, rfl, rfl, ⟨_, rfl, rfl⟩, ?_⟩
  intro p hmem
  rcases hp : clientGetPod c f (bookPodKey book) with e | q
  · rcases he : decEq e KError.notFound with ⟨hne⟩ | ⟨heq⟩
    · rw [reconcile_eq_pod_error c f req book e hb hp hne] at hmem
      simp at hmem
    · subst heq
      rw [reconcile_eq_create c f req book hb hp] at hmem
      simp at hmem
      exact hmem
  · rw [reconcile_eq_pod_found c f req book q hb hp] at hmem
    simp at hmem

/-- C3: on the create path the outcome of the Create call is returned
verbatim — an error e comes back exactly as e with an empty result,
and a successful create yields a nil error. -/
theorem reconcile_create_outcome_verbatim (c : Cluster) (f : Faults) (req : Request)
    (book : Book) (e : KError)
    (hb : clientGetBook c f req.NamespacedName = Except.ok book)
    (hp : clientGetPod c f (bookPodKey book) = Except.error KError.notFound) :
    ((clientCreatePod c f (newPod book)).2 = some e →
      (Reconcile c f req).error = some e ∧ (Reconcile c f req).result = {}) ∧
    ((clientCreatePod c f (newPod book)).2 = none →
      (Reconcile c f req).error = none ∧ (Reconcile c f req).result = {}) := by
  rw [reconcile_eq_create c f req book hb hp]
  exact ⟨fun h => ⟨h, rfl⟩, fun h => ⟨h, rfl⟩⟩

/-- C4: when the companion pod already exists — whatever its contents —
Reconcile changes no cluster state, makes no mutating call, and
returns success with an empty result. -/
theorem reconcile_pod_exists_noop (c : Cluster) (f : Faults) (req : Request)
    (book : Book) (p : Pod)
    (hb : clientGetBook c f req.NamespacedName = Except.ok book)
    (hp : clientGetPod c f (bookPodKey book) = Except.ok p) :
    (Reconcile c f req).cluster = c ∧
    (Reconcile c f req).error = none ∧
    (Reconcile c f req).result = {} ∧
    ∀ op ∈ (Reconcile c f req).trace, Op.isMutation op = false := by
  rw [reconcile_eq_pod_found c f req book p hb hp]
  refine ⟨rfl, rfl, rfl, ?_⟩
  intro op hop
  simp only [List.mem_cons, List.not_mem_nil, or_false] at hop
  rcases hop with rfl | rfl <;> rfl

/-- C5: Reconcile is idempotent for its single desired child: when the
Book exists and its pod does not, one run leaves exactly one stored
pod under the deterministic name, and a second run performs no further
create and leaves the cluster unchanged. -/
theorem reconcile_idempotent (c : Cluster) (req : Request) (book : Book)
    (hb : clientGetBook c noFaults req.NamespacedName = Except.ok book)
    (hp : assocFind c.Pods (bookPodKey book) = none) :
    assocFind (Reconcile c noFaults req).cluster.Pods (bookPodKey book) =
      some (newPod book) ∧
    countKey (Reconcile c noFaults req).cluster.Pods (bookPodKey book) = 1 ∧
    (Reconcile c noFaults req).trace.countP Op.isCreatePod = 1 ∧
    Reconcile (Reconcile c noFaults req).cluster noFaults req =
      ⟨(Reconcile c noFaults req).cluster, {}, none,
        [Op.getBook req.NamespacedName, Op.getPod (bookPodKey book)]⟩ := by
  have hgp : clientGetPod c noFaults (bookPodKey book) = Except.error KError.notFound := by
    unfold clientGetPod noFaults
    rw [hp]
  have h1 := reconcile_eq_create c noFaults req book hb hgp
  have hcr : clientCreatePod c noFaults (newPod book) =
      ({ c with Pods := (bookPodKey book, newPod book) :: c.Pods }, none) := rfl
  rw [h1, hcr]
  dsimp only
  refine ⟨?_, ?_, ?_, ?_⟩
  · unfold assocFind
    rw [if_pos rfl]
  · have h0 := countKey_eq_zero_of_assocFind_none c.Pods (bookPodKey book) hp
    unfold countKey at h0 ⊢
    rw [List.countP_cons, h0]
    simp
  · simp [List.countP_cons, Op.isCreatePod]
  · have hb2 : clientGetBook { c with Pods := (bookPodKey book, newPod book) :: c.Pods }
        noFaults req.NamespacedName = Except.ok book :=
      (clientGetBook_congr { c with Pods := (bookPodKey book, newPod book) :: c.Pods }
        c noFaults req.NamespacedName rfl).trans hb
    have hp2 : clientGetPod { c with Pods := (bookPodKey book, newPod book) :: c.Pods }
        noFaults (bookPodKey book) = Except.ok (newPod book) := by
      unfold clientGetPod noFaults
      dsimp only
      unfold assocFind
      rw [if_pos rfl]
    exact reconcile_eq_pod_found _ noFaults req book (newPod book) hb2 hp2

/-- C9: a not-found error on the Book fetch is suppressed — Reconcile
returns success with the cluster untouched and no pod call made —
while any other Book fetch error is propagated to the caller. -/
theorem reconcile_book_notfound_suppressed (c : Cluster) (f : Faults) (req : Request) :
    (clientGetBook c f req.NamespacedName = Except.error KError.notFound →
      (Reconcile c f req).error = none ∧
      (Reconcile c f req).result = {} ∧
      (Reconcile c f req).cluster = c ∧
      (Reconcile c f req).trace = [Op.getBook req.NamespacedName]) ∧
    (∀ e : KError, clientGetBook c f req.NamespacedName = Except.error e →
      e ≠ KError.notFound → (Reconcile c f req).error = some e) := by
  constructor
  · intro hb
    rw [reconcile_eq_book_error c f req KError.notFound hb]
    exact ⟨rfl, rfl, rfl, rfl⟩
  · intro e hb hne
    rw [reconcile_eq_book_error c f req e hb]
    dsimp only
    exact ignoreNotFound_of_ne e hne

/-- C10: a pod lookup error other than notFound is returned as-is and
no create call is made, the cluster being left unchanged. -/
theorem reconcile_pod_get_error_no_create (c : Cluster) (f : Faults) (req : Request)
    (book : Book) (e : KError)
    (hb : clientGetBook c f req.NamespacedName = Except.ok book)
    (hp : clientGetPod c f (bookPodKey book) = Except.error e)
    (hne : e ≠ KError.notFound) :
    (Reconcile c f req).error = some e ∧
    (Reconcile c f req).cluster = c ∧
    (Reconcile c f req).trace.countP Op.isCreatePod = 0 := by
  rw [reconcile_eq_pod_error c f req book e hb hp hne]
  refine ⟨rfl, rfl, ?_⟩
  simp [List.countP_cons, Op.isCreatePod]

/-- C8: the custom resource's data model is a single spec with exactly
two scalar fields, a string title and an integer year: BookSpec is in
bijection with String × Int. -/
theorem bookSpec_two_scalar_fields :
    (∀ s : BookSpec, BookSpec.ofPair s.toPair = s) ∧
    (∀ p : String × Int, (BookSpec.ofPair p).toPair = p) :=
  ⟨fun _ => rfl, fun _ => rfl⟩

instance exceptDecEq {ε α : Type} [DecidableEq ε] [DecidableEq α] :
    DecidableEq (Except ε α) := fun x y =>
  match x, y with
  | Except.ok a, Except.ok b =>
    if h : a = b then isTrue (by rw [h])
    else isFalse (fun hc => absurd (Except.ok.inj hc) h)
  | Except.ok _, Except.error _ => isFalse (fun hc => Except.noConfusion hc)
  | Except.error _, Except.ok _ => isFalse (fun hc => Except.noConfusion hc)
  | Except.error a, Except.error b =>
    if h : a = b then isTrue (by rw [h])
    else isFalse (fun hc => absurd (Except.error.inj hc) h)

/-- A sample Book resource. -/
def book0 : Book :=
  { ObjectMeta := { Name := "b1", Namespace := "ns", UID := "u1" }
    Spec := { Book := "Dune", Year := 1965 } }

/-- The key of the sample Book. -/
def key0 : ObjectKey := ⟨"b1", "ns"⟩

/-- A reconcile request for the sample Book. -/
def req0 : Request := ⟨key0⟩

/-- A cluster holding the sample Book and no pod. -/
def cluster0 : Cluster := ⟨[(key0, book0)], []⟩

/-- A cluster holding nothing at all. -/
def emptyCluster : Cluster := ⟨[], []⟩

/-- A pod at the companion pod's key whose contents differ from the
pod the reconciler would build. -/
def strayPod : Pod :=
  { ObjectMeta := { Name := "b1-pod", Namespace := "ns" }
    Spec := { Containers := [] } }

/-- A cluster holding the sample Book and the stray pod. -/
def clusterStray : Cluster := ⟨[(key0, book0)], [(bookPodKey book0, strayPod)]⟩

/-- Environment in which the Book Get fails with a non-notFound error. -/
def faultBook : Faults := { bookGet := some (KError.other "apiDown") }

/-- Environment in which the pod Get fails with a non-notFound error. -/
def faultPodGet : Faults := { podGet := some (KError.other "boom") }

/-- Environment in which the pod Create fails. -/
def faultCreate : Faults := { podCreate := some (KError.other "quota") }

/-- Witness for C1: one Book and no pod gives one pod Get and one
create; one Book and an existing pod gives one pod Get and no create. -/
theorem reconcile_single_check_single_create_witness :
    ((Reconcile cluster0 noFaults req0).trace.countP Op.isGetPod = 1 ∧
     countOp (Reconcile cluster0 noFaults req0).trace (Op.getPod (bookPodKey book0)) = 1 ∧
     (Reconcile cluster0 noFaults req0).trace.countP Op.isCreatePod = 1) ∧
    ((Reconcile clusterStray noFaults req0).trace.countP Op.isGetPod = 1 ∧
     (Reconcile clusterStray noFaults req0).trace.countP Op.isCreatePod = 0) :=
  ⟨(reconcile_single_check_single_create cluster0 noFaults req0 book0 (by decide)).1
      (by decide),
   (reconcile_single_check_single_create clusterStray noFaults req0 book0 (by decide)).2
      strayPod (by decide)⟩

/-- Witness for C2 at the sample Book. -/
theorem reconcile_pod_owned_and_loops_witness :
    (newPod book0).ObjectMeta.OwnerReferences =
      [NewControllerRef book0 (packtGroupVersion.WithKind "Book")] ∧
    (NewControllerRef book0 (packtGroupVersion.WithKind "Book")).Controller = true ∧
    (NewControllerRef book0 (packtGroupVersion.WithKind "Book")).Kind = "Book" ∧
    (NewControllerRef book0 (packtGroupVersion.WithKind "Book")).Name =
      book0.ObjectMeta.Name ∧
    (∃ cont : Container, (newPod book0).Spec.Containers = [cont] ∧
      cont.Command = ["sh", "-c",
        "while true; do echo Book: " ++ book0.Spec.Book ++ ", Year: " ++
          toString book0.Spec.Year ++ "; sleep 1; done"]) ∧
    (∀ p : Pod, Op.createPod p ∈ (Reconcile cluster0 noFaults req0).trace →
      p = newPod book0) :=
  reconcile_pod_owned_and_loops cluster0 noFaults req0 book0 (by decide)

/-- Witness for C3: a failing create's error comes back verbatim; a
successful create yields a nil error. -/
theorem reconcile_create_outcome_verbatim_witness :
    ((Reconcile cluster0 faultCreate req0).error = some (KError.other "quota") ∧
     (Reconcile cluster0 faultCreate req0).result = {}) ∧
    ((Reconcile cluster0 noFaults req0).error = none ∧
     (Reconcile cluster0 noFaults req0).result = {}) :=
  ⟨(reconcile_create_outcome_verbatim cluster0 faultCreate req0 book0
      (KError.other "quota") (by decide) (by decide)).1 (by decide),
   (reconcile_create_outcome_verbatim cluster0 noFaults req0 book0
      (KError.other "quota") (by decide) (by decide)).2 (by decide)⟩

/-- Witness for C4 at a cluster whose existing pod differs from the
pod the reconciler would build. -/
theorem reconcile_pod_exists_noop_witness :
    (Reconcile clusterStray noFaults req0).cluster = clusterStray ∧
    (Reconcile clusterStray noFaults req0).error = none ∧
    (Reconcile clusterStray noFaults req0).result = {} ∧
    ∀ op ∈ (Reconcile clusterStray noFaults req0).trace, Op.isMutation op = false :=
  reconcile_pod_exists_noop clusterStray noFaults req0 book0 strayPod
    (by decide) (by decide)

/-- Witness for C5 at the sample cluster. -/
theorem reconcile_idempotent_witness :
    assocFind (Reconcile cluster0 noFaults req0).cluster.Pods (bookPodKey book0) =
      some (newPod book0) ∧
    countKey (Reconcile cluster0 noFaults req0).cluster.Pods (bookPodKey book0) = 1 ∧
    (Reconcile cluster0 noFaults req0).trace.countP Op.isCreatePod = 1 ∧
    Reconcile (Reconcile cluster0 noFaults req0).cluster noFaults req0 =
      ⟨(Reconcile cluster0 noFaults req0).cluster, {}, none,
        [Op.getBook req0.NamespacedName, Op.getPod (bookPodKey book0)]⟩ :=
  reconcile_idempotent cluster0 req0 book0 (by decide) (by decide)

/-- Witness for C9: a deleted Book reconciles to success without
touching pods, while a non-notFound Book fetch error is propagated. -/
theorem reconcile_book_notfound_suppressed_witness :
    ((Reconcile emptyCluster noFaults req0).error = none ∧
     (Reconcile emptyCluster noFaults req0).result = {} ∧
     (Reconcile emptyCluster noFaults req0).cluster = emptyCluster ∧
     (Reconcile emptyCluster noFaults req0).trace = [Op.getBook req0.NamespacedName]) ∧
    (Reconcile emptyCluster faultBook req0).error = some (KError.other "apiDown") :=
  ⟨(reconcile_book_notfound_suppressed emptyCluster noFaults req0).1 (by decide),
   (reconcile_book_notfound_suppressed emptyCluster faultBook req0).2
      (KError.other "apiDown") (by decide) (by decide)⟩

/-- Witness for C10 at a failing pod Get. -/
theorem reconcile_pod_get_error_no_create_witness :
    (Reconcile cluster0 faultPodGet req0).error = some (KError.other "boom") ∧
    (Reconcile cluster0 faultPodGet req0).cluster = cluster0 ∧
    (Reconcile cluster0 faultPodGet req0).trace.countP Op.isCreatePod = 0 :=
  reconcile_pod_get_error_no_create cluster0 faultPodGet req0 book0
    (KError.other "boom") (by decide) (by decide) (by decide)

end BooksOperator
